import Mathlib

/-!
Shallow embedding of the offline-first write queue of the meatsafe frontend
(`frontend/src/store/offlineQueue.ts`, payload type from
`frontend/src/api/inspector.ts`), together with theorems about its
enqueue / markSynced / markFailed / loadFromStorage / syncAll operations
and the connectivity handler.
-/

namespace MeatSafe

/-- Animal species enumeration from `api/inspector.ts`. -/
inductive Species
  | bovine | ovine | caprine | porcine | camelid | other
deriving DecidableEq, Repr

/-- Seized part enumeration from `api/inspector.ts`. -/
inductive SeizedPart
  | carcass | liver | lung | heart | kidney | spleen | head | other
deriving DecidableEq, Repr

/-- Seizure type enumeration from `api/inspector.ts`. -/
inductive SeizureType
  | partial_ | total
deriving DecidableEq, Repr

/-- Measurement unit enumeration (`type Unit = "kg" | "g" | "pieces"`). -/
inductive Unit
  | kg | g | pieces
deriving DecidableEq, Repr

/-- The payload of a seizure-creation request (`CreateSeizurePayload` in
`api/inspector.ts`).  `quantity` is a JS number; the queue only stores and
forwards it verbatim and never computes with it, so `Int` stands in for the
numeric domain. -/
structure CreateSeizurePayload where
  seizure_datetime : Option String
  species : Species
  seized_part : SeizedPart
  seizure_type : SeizureType
  reason : String
  quantity : Int
  unit : Unit
  notes : Option String
  photos : Option (List String)
deriving DecidableEq, Repr

/-- Entry status (`type OfflineSeizureStatus = "pending" | "synced" | "failed"`). -/
inductive OfflineSeizureStatus
  | pending | synced | failed
deriving DecidableEq, Repr

/-- One queued entry (`interface OfflineSeizure`). -/
structure OfflineSeizure where
  localId : String
  payload : CreateSeizurePayload
  status : OfflineSeizureStatus
  error : Option String
deriving DecidableEq, Repr

/-- Result of a queue mutation: the new in-memory list (returned from the
`setItems` updater) and the list handed to `persist` (the source always calls
`void persist(next)` with the same `next` it returns). -/
structure MutationResult where
  items : List OfflineSeizure
  persisted : List OfflineSeizure
deriving DecidableEq, Repr

/-- The local identifier assembled in `addPending`:
`` `local-${Date.now()}-${Math.random().toString(36).slice(2, 8)}` ``.
`now` models `Date.now()` and `rand` the random base-36 suffix; both are
inputs because they are nondeterministic in the source. -/
def mkLocalId (now : Nat) (rand : String) : String :=
  "local-" ++ toString now ++ "-" ++ rand

/-- `addPending`: builds a new entry with `status: "pending"`, appends it to
the previous list and persists the new list. -/
def addPending (payload : CreateSeizurePayload) (now : Nat) (rand : String)
    (items : List OfflineSeizure) : MutationResult :=
  let localId := mkLocalId now rand
  let newItem : OfflineSeizure :=
    { localId := localId, payload := payload
      status := OfflineSeizureStatus.pending, error := none }
  let next := items ++ [newItem]
  { items := next, persisted := next }

/-- The value the `addPending` arrow function returns to its caller.  Its
body ends in a `setItems(...)` statement and has no `return`, so in TS the
call evaluates to `undefined`; the context type annotates it `=> void`. -/
def addPendingReturnValue (_payload : CreateSeizurePayload) (_now : Nat)
    (_rand : String) (_items : List OfflineSeizure) : PUnit :=
  PUnit.unit

/-- `markSynced`: `prev.filter((i) => i.localId !== localId)`, then persist. -/
def markSynced (localId : String) (items : List OfflineSeizure) : MutationResult :=
  let next := items.filter (fun i => i.localId != localId)
  { items := next, persisted := next }

/-- `markFailed`: `prev.map((i) => i.localId === localId ? { ...i, status: "failed", error } : i)`,
then persist. -/
def markFailed (localId : String) (error : Option String)
    (items : List OfflineSeizure) : MutationResult :=
  let next := items.map (fun i =>
    if i.localId == localId
    then { i with status := OfflineSeizureStatus.failed, error := error }
    else i)
  { items := next, persisted := next }

/-- What `AsyncStorage.getItem(STORAGE_KEY)` followed by `JSON.parse` can
yield: nothing stored (`null`, and `""` is equally falsy under `if (stored)`),
a string that parses to a list of entries, or a corrupt string on which
`JSON.parse` throws. -/
inductive StoredValue
  | good (entries : List OfflineSeizure)
  | corrupt
deriving DecidableEq, Repr

/-- `loadFromStorage`: reads the stored value; when a value is present and
parses, `setItems(parsed)` replaces the in-memory list; when nothing is
stored the `if (stored)` guard skips the update; when parsing throws, the
`catch` swallows the error and the state is untouched.  Total: never throws. -/
def loadFromStorage (stored : Option StoredValue)
    (items : List OfflineSeizure) : List OfflineSeizure :=
  match stored with
  | none => items
  | some (StoredValue.good parsed) => parsed
  | some StoredValue.corrupt => items

/-- The loop of `syncAll` over the snapshot `currentItems = [...items]`.
`createSeizureOk k` tells whether the `k`-th `createSeizure` call of this
pass resolves (`true`) or rejects (`false`); on resolve the loop runs
`markSynced(item.localId)`, on reject `markFailed(item.localId, "Erreur de synchronisation")`.
Returns the final in-memory list and the trace of payloads passed to
`createSeizure`, in call order. -/
def syncAllFrom (createSeizureOk : Nat → Bool) :
    Nat → List OfflineSeizure → List OfflineSeizure →
    List OfflineSeizure × List CreateSeizurePayload
  | _, [], items => (items, [])
  | k, item :: rest, items =>
    if item.status != OfflineSeizureStatus.pending then
      syncAllFrom createSeizureOk k rest items
    else
      let items2 :=
        if createSeizureOk k then (markSynced item.localId items).items
        else
          (markFailed item.localId (some "Erreur de synchronisation") items).items
      let r := syncAllFrom createSeizureOk (k + 1) rest items2
      (r.1, item.payload :: r.2)

/-- `syncAll`: snapshots the item list at invocation and walks it. -/
def syncAll (createSeizureOk : Nat → Bool) (items : List OfflineSeizure) :
    List OfflineSeizure × List CreateSeizurePayload :=
  syncAllFrom createSeizureOk 0 items items

/-- JS double negation `!!` applied to a nullable boolean
(NetInfo's `isConnected` / `isInternetReachable` are `boolean | null`). -/
def toBool (b : Option Bool) : Bool :=
  b.getD false

/-- The network state delivered to the `NetInfo.addEventListener` handler. -/
structure NetInfoState where
  isConnected : Option Bool
  isInternetReachable : Option Bool
deriving DecidableEq, Repr

/-- The connectivity handler:
`const online = !!state.isConnected && !!state.isInternetReachable`.
Returns the value stored by `setIsOnline(online)` and whether `syncAll`
is triggered (`if (online) void syncAll()`). -/
def netInfoHandler (state : NetInfoState) : Bool × Bool :=
  let online := toBool state.isConnected && toBool state.isInternetReachable
  (online, online)

/-- One queue-engine mutation, for stating invariants over operation
sequences. -/
inductive QueueOp
  | add (payload : CreateSeizurePayload) (now : Nat) (rand : String)
  | msync (localId : String)
  | mfail (localId : String) (error : Option String)

/-- Apply one mutation to the in-memory list. -/
def applyOp (items : List OfflineSeizure) : QueueOp → List OfflineSeizure
  | QueueOp.add p now rand => (addPending p now rand items).items
  | QueueOp.msync id => (markSynced id items).items
  | QueueOp.mfail id err => (markFailed id err items).items

/-- Apply a sequence of mutations in order. -/
def applyOps (ops : List QueueOp) (items : List OfflineSeizure) : List OfflineSeizure :=
  ops.foldl applyOp items

/-- A sample payload used by concrete witnesses and counterexamples. -/
def samplePayload : CreateSeizurePayload :=
  { seizure_datetime := none, species := Species.bovine
    seized_part := SeizedPart.liver, seizure_type := SeizureType.total
    reason := "tuberculose", quantity := 3, unit := Unit.kg
    notes := none, photos := none }

/-- A sample entry whose status is `failed`, as `markFailed` would leave it. -/
def sampleFailedEntry : OfflineSeizure :=
  { localId := "local-1-abc123", payload := samplePayload
    status := OfflineSeizureStatus.failed
    error := some "Erreur de synchronisation" }

/-- Three sample pending entries with pairwise distinct local ids. -/
def entryA : OfflineSeizure :=
  { localId := "local-1-aaaaaa", payload := samplePayload
    status := OfflineSeizureStatus.pending, error := none }

/-- Second sample pending entry. -/
def entryB : OfflineSeizure :=
  { localId := "local-2-bbbbbb"
    payload := { samplePayload with reason := "cysticercose", quantity := 7 }
    status := OfflineSeizureStatus.pending, error := none }

/-- Third sample pending entry. -/
def entryC : OfflineSeizure :=
  { localId := "local-3-cccccc"
    payload := { samplePayload with seized_part := SeizedPart.lung }
    status := OfflineSeizureStatus.pending, error := none }

/-- C2: the `addPending` call's return value is the same for two invocations
that assign different local ids, so the assigned `localId` is not returned
to the caller (the function returns void). -/
theorem addPending_return_carries_no_localId :
    addPendingReturnValue samplePayload 1 "aaaaaa" [] =
      addPendingReturnValue samplePayload 2 "bbbbbb" []
    ∧ mkLocalId 1 "aaaaaa" ≠ mkLocalId 2 "bbbbbb" :=
  ⟨rfl, by decide⟩

/-- C2 (amended): `addPending` appends a new entry with status `pending`,
the assigned local id and no error at the end of the list, keeps the prior
entries unchanged in order, and persists exactly the new list; it is total
(never fails) — but it does not return the assigned local id. -/
theorem addPending_spec (payload : CreateSeizurePayload) (now : Nat)
    (rand : String) (items : List OfflineSeizure) :
    (addPending payload now rand items).items.length = items.length + 1
    ∧ (addPending payload now rand items).items.take items.length = items
    ∧ (addPending payload now rand items).items.getLast? =
        some { localId := mkLocalId now rand, payload := payload
               status := OfflineSeizureStatus.pending, error := none }
    ∧ (addPending payload now rand items).persisted =
        (addPending payload now rand items).items := by
  refine ⟨by simp [addPending], ?_, ?_, rfl⟩
  · simp [addPending, List.take_left]
  · simp [addPending]

/-- C3: with nothing stored, `loadFromStorage` leaves a non-empty in-memory
queue unchanged instead of producing the empty sequence. -/
theorem loadFromStorage_empty_store_not_cleared :
    loadFromStorage none [sampleFailedEntry] = [sampleFailedEntry]
    ∧ [sampleFailedEntry] ≠ ([] : List OfflineSeizure) :=
  ⟨rfl, by decide⟩

/-- C3 (amended): `loadFromStorage` is total (never throws); a present,
parsable stored value replaces the in-memory state; nothing stored or a
corrupt stored value leaves the in-memory state unchanged — in particular
the queue stays empty in those cases when the load runs at process start
from the initial empty state. -/
theorem loadFromStorage_spec (items parsed : List OfflineSeizure) :
    loadFromStorage (some (StoredValue.good parsed)) items = parsed
    ∧ loadFromStorage none items = items
    ∧ loadFromStorage (some StoredValue.corrupt) items = items
    ∧ loadFromStorage none [] = ([] : List OfflineSeizure)
    ∧ loadFromStorage (some StoredValue.corrupt) [] = ([] : List OfflineSeizure) :=
  ⟨rfl, rfl, rfl, rfl, rfl⟩

/-- C6: `markSynced` is idempotent — a second call with the same id leaves
the queue (and the persisted value) exactly as the first call did, the entry
with that id is absent after the call, and a call for an absent id returns
the list unchanged (while still persisting). -/
theorem markSynced_idempotent (localId : String) (items : List OfflineSeizure) :
    markSynced localId (markSynced localId items).items = markSynced localId items
    ∧ (∀ i ∈ (markSynced localId items).items, i.localId ≠ localId)
    ∧ ((∀ i ∈ items, i.localId ≠ localId) →
        markSynced localId items = ⟨items, items⟩) := by
  refine ⟨?_, ?_, ?_⟩
  · simp [markSynced, List.filter_filter]
  · intro i hi
    have hp := List.of_mem_filter hi
    simpa [bne_iff_ne] using hp
  · intro h
    have hfix : items.filter (fun i => i.localId != localId) = items :=
      List.filter_eq_self.mpr (fun a ha => by simpa [bne_iff_ne] using h a ha)
    simp [markSynced, hfix]

/-- C6 witness: concrete instance of the idempotence equation. -/
theorem markSynced_idempotent_witness :
    markSynced "local-1-abc123"
        (markSynced "local-1-abc123" [sampleFailedEntry, entryA]).items =
      markSynced "local-1-abc123" [sampleFailedEntry, entryA] :=
  (markSynced_idempotent "local-1-abc123" [sampleFailedEntry, entryA]).1

/-- C9: the connectivity handler computes `isOnline` as the conjunction of
`isConnected` and `isInternetReachable`; a connection without internet
reachability (captive portal) yields offline. -/
theorem isOnline_iff_connected_and_reachable (connected internetReachable : Bool) :
    ((netInfoHandler ⟨some connected, some internetReachable⟩).1 = true)
      ↔ (connected = true ∧ internetReachable = true) := by
  simp [netInfoHandler, toBool]

/-- C7: `markFailed` preserves length and positions; the entry at a position
whose id differs from the argument is unchanged, the entry whose id matches
gets status `failed` and the given error, and when no entry matches the call
returns the list unchanged (while still persisting it). -/
theorem markFailed_frame (localId : String) (error : Option String)
    (items : List OfflineSeizure) :
    (markFailed localId error items).items.length = items.length
    ∧ (∀ (k : Nat) (i : OfflineSeizure), items[k]? = some i → i.localId ≠ localId →
        (markFailed localId error items).items[k]? = some i)
    ∧ (∀ (k : Nat) (i : OfflineSeizure), items[k]? = some i → i.localId = localId →
        (markFailed localId error items).items[k]? =
          some { i with status := OfflineSeizureStatus.failed, error := error })
    ∧ ((∀ i ∈ items, i.localId ≠ localId) →
        markFailed localId error items = ⟨items, items⟩) := by
  refine ⟨by simp [markFailed], ?_, ?_, ?_⟩
  · intro k i hk hne
    simp [markFailed, List.getElem?_map, hk, hne]
  · intro k i hk heq
    simp [markFailed, List.getElem?_map, hk, heq]
  · intro h
    have hfix : ∀ l : List OfflineSeizure, (∀ i ∈ l, i.localId ≠ localId) →
        l.map (fun i =>
          if i.localId == localId
          then { i with status := OfflineSeizureStatus.failed, error := error }
          else i) = l := by
      intro l hl
      induction l with
      | nil => rfl
      | cons x xs ih =>
        have hx : ¬ ((x.localId == localId) = true) := by
          simpa using hl x (List.mem_cons_self x xs)
        have hxs : ∀ i ∈ xs, i.localId ≠ localId :=
          fun i hi => hl i (List.mem_cons_of_mem x hi)
        rw [List.map_cons, if_neg hx, ih hxs]
    simp only [markFailed]
    rw [hfix items h]

/-- C7 witness: a concrete frame instance — the entry at position 1 keeps
its value when position 0 is the one marked failed. -/
theorem markFailed_frame_witness :
    (markFailed "local-1-aaaaaa" (some "boom") [entryA, entryB]).items[1]? =
      some entryB :=
  (markFailed_frame "local-1-aaaaaa" (some "boom") [entryA, entryB]).2.1
    1 entryB (by decide) (by decide)

/-- Each single queue-engine mutation preserves the absence of `synced`
entries: `addPending` appends a `pending` entry, `markSynced` removes
entries, and `markFailed` only rewrites a status to `failed`. -/
lemma applyOp_no_synced (items : List OfflineSeizure) (op : QueueOp)
    (h : ∀ i ∈ items, i.status ≠ OfflineSeizureStatus.synced) :
    ∀ i ∈ applyOp items op, i.status ≠ OfflineSeizureStatus.synced := by
  intro i hi
  cases op with
  | add p now rand =>
    simp only [applyOp, addPending, List.mem_append, List.mem_singleton] at hi
    rcases hi with hi | hi
    · exact h i hi
    · subst hi; simp
  | msync id =>
    exact h i (List.mem_of_mem_filter hi)
  | mfail id err =>
    simp only [applyOp, markFailed, List.mem_map] at hi
    obtain ⟨j, hj, rfl⟩ := hi
    by_cases hid : j.localId == id
    · simp [hid]
    · simpa [hid] using h j hj

/-- Folding any sequence of mutations preserves the absence of `synced`
entries. -/
lemma applyOps_no_synced (ops : List QueueOp) :
    ∀ items : List OfflineSeizure,
      (∀ i ∈ items, i.status ≠ OfflineSeizureStatus.synced) →
      ∀ i ∈ applyOps ops items, i.status ≠ OfflineSeizureStatus.synced := by
  induction ops with
  | nil => intro items h; simpa [applyOps] using h
  | cons op rest ih =>
    intro items h
    have hstep := applyOp_no_synced items op h
    simpa [applyOps, List.foldl_cons] using ih (applyOp items op) hstep

/-- C8: starting from the empty queue, after any sequence of `addPending`,
`markSynced` and `markFailed` operations no retained entry has status
`synced` — successful syncs remove their entry instead of relabelling it. -/
theorem no_synced_entry_retained (ops : List QueueOp) :
    ∀ i ∈ applyOps ops [], i.status ≠ OfflineSeizureStatus.synced :=
  applyOps_no_synced ops [] (by simp)

/-- C8 witness: the entry produced by a concrete `addPending` is not
`synced`. -/
theorem no_synced_entry_retained_witness :
    ({ localId := mkLocalId 1 "abc123", payload := samplePayload
       status := OfflineSeizureStatus.pending, error := none } : OfflineSeizure).status
      ≠ OfflineSeizureStatus.synced :=
  no_synced_entry_retained [QueueOp.add samplePayload 1 "abc123"] _ (by decide)

/-- The trace of `createSeizure` calls a sync pass makes is exactly the
payloads of the snapshot's `pending` entries, in snapshot order, whatever
the current in-memory list and call outcomes are. -/
lemma syncAllFrom_trace (ok : Nat → Bool) :
    ∀ (snap : List OfflineSeizure) (k : Nat) (items : List OfflineSeizure),
      (syncAllFrom ok k snap items).2 =
        (snap.filter (fun i => i.status == OfflineSeizureStatus.pending)).map
          (fun i => i.payload) := by
  intro snap
  induction snap with
  | nil => intro k items; simp [syncAllFrom]
  | cons item rest ih =>
    intro k items
    by_cases h : item.status = OfflineSeizureStatus.pending
    · simp [syncAllFrom, h, ih]
    · simp [syncAllFrom, h, ih]

/-- C1 counterexample: a queue holding one `failed` entry gets zero
`createSeizure` calls from `syncAll` (even with a collaborator that would
accept), and the entry stays in the queue, still `failed`. -/
theorem syncAll_skips_failed_counterexample :
    sampleFailedEntry.status = OfflineSeizureStatus.failed
    ∧ (syncAll (fun _ => true) [sampleFailedEntry]).2 = []
    ∧ (syncAll (fun _ => true) [sampleFailedEntry]).1 = [sampleFailedEntry] :=
  ⟨rfl, rfl, rfl⟩

/-- C1 (amended): `syncAll` attempts a remote submission exactly for the
entries whose status is `pending`, in queue order; `failed` (and any other
non-`pending`) entries receive no `createSeizure` call. -/
theorem syncAll_attempts_exactly_pending (ok : Nat → Bool)
    (items : List OfflineSeizure) :
    (syncAll ok items).2 =
      (items.filter (fun i => i.status == OfflineSeizureStatus.pending)).map
        (fun i => i.payload) :=
  syncAllFrom_trace ok items 0 items

/-- C4: when every entry is `pending` (as after enqueuing A, B, C), the
collaborator is called with the payloads sequentially in insertion order. -/
theorem syncAll_trace_in_enqueue_order (ok : Nat → Bool)
    (items : List OfflineSeizure)
    (h : ∀ i ∈ items, i.status = OfflineSeizureStatus.pending) :
    (syncAll ok items).2 = items.map (fun i => i.payload) := by
  have htr := syncAllFrom_trace ok items 0 items
  rwa [List.filter_eq_self.mpr (fun a ha => by simp [h a ha])] at htr

/-- C4 witness: three concrete pending entries are submitted in order. -/
theorem syncAll_trace_in_enqueue_order_witness :
    (syncAll (fun _ => true) [entryA, entryB, entryC]).2 =
      [entryA, entryB, entryC].map (fun i => i.payload) :=
  syncAll_trace_in_enqueue_order (fun _ => true) [entryA, entryB, entryC]
    (by decide)

/-- C5: with three distinct pending entries and a collaborator rejecting
only the second call, the pass still submits all three payloads in order,
removes A and C as synced, and leaves exactly B, marked `failed` with the
sync error message. -/
theorem syncAll_partial_failure_isolation (a b c : OfflineSeizure)
    (ha : a.status = OfflineSeizureStatus.pending)
    (hb : b.status = OfflineSeizureStatus.pending)
    (hc : c.status = OfflineSeizureStatus.pending)
    (hab : a.localId ≠ b.localId) (hac : a.localId ≠ c.localId)
    (hbc : b.localId ≠ c.localId) :
    syncAll (fun k => k != 1) [a, b, c] =
      ([{ b with status := OfflineSeizureStatus.failed
                 error := some "Erreur de synchronisation" }],
       [a.payload, b.payload, c.payload]) := by
  have hba : b.localId ≠ a.localId := Ne.symm hab
  have hca : c.localId ≠ a.localId := Ne.symm hac
  have hcb : c.localId ≠ b.localId := Ne.symm hbc
  simp [syncAll, syncAllFrom, markSynced, markFailed, ha, hb, hc,
        hab, hac, hbc, hba, hca, hcb]

/-- C5 witness: the concrete three-entry failure-isolation run. -/
theorem syncAll_partial_failure_isolation_witness :
    syncAll (fun k => k != 1) [entryA, entryB, entryC] =
      ([{ entryB with status := OfflineSeizureStatus.failed
                      error := some "Erreur de synchronisation" }],
       [entryA.payload, entryB.payload, entryC.payload]) :=
  syncAll_partial_failure_isolation entryA entryB entryC rfl rfl rfl
    (by decide) (by decide) (by decide)

/-- An entry whose local id differs from the removed one survives
`markSynced` unchanged. -/
lemma mem_markSynced_of_ne (id : String) (items : List OfflineSeizure)
    (e : OfflineSeizure) (he : e ∈ items) (hne : e.localId ≠ id) :
    e ∈ (markSynced id items).items := by
  simp [markSynced, List.mem_filter, he, hne]

/-- An entry whose local id differs from the marked one survives
`markFailed` unchanged. -/
lemma mem_markFailed_of_ne (id : String) (err : Option String)
    (items : List OfflineSeizure) (e : OfflineSeizure)
    (he : e ∈ items) (hne : e.localId ≠ id) :
    e ∈ (markFailed id err items).items := by
  have hfe : (fun i =>
      if i.localId == id
      then { i with status := OfflineSeizureStatus.failed, error := err }
      else i) e = e := by simp [hne]
  have := List.mem_map_of_mem (fun i =>
      if i.localId == id
      then { i with status := OfflineSeizureStatus.failed, error := err }
      else i) he
  rw [hfe] at this
  simpa [markFailed] using this

/-- A sync pass over a snapshot only ever calls `markSynced`/`markFailed`
with local ids drawn from the snapshot, so an entry of the current list
whose id occurs nowhere in the snapshot survives the whole pass unchanged. -/
lemma syncAllFrom_preserves_fresh (ok : Nat → Bool) :
    ∀ (snap : List OfflineSeizure) (k : Nat) (items : List OfflineSeizure)
      (e : OfflineSeizure), e ∈ items → (∀ s ∈ snap, s.localId ≠ e.localId) →
      e ∈ (syncAllFrom ok k snap items).1 := by
  intro snap
  induction snap with
  | nil => intro k items e he _; simpa [syncAllFrom] using he
  | cons item rest ih =>
    intro k items e he hfresh
    have hid : e.localId ≠ item.localId :=
      Ne.symm (hfresh item (List.mem_cons_self item rest))
    have hrest : ∀ s ∈ rest, s.localId ≠ e.localId :=
      fun s hs => hfresh s (List.mem_cons_of_mem item hs)
    by_cases h : item.status = OfflineSeizureStatus.pending
    · by_cases hok : ok k
      · simpa [syncAllFrom, h, hok] using
          ih (k + 1) (markSynced item.localId items).items e
            (mem_markSynced_of_ne item.localId items e he hid) hrest
      · simpa [syncAllFrom, h, hok] using
          ih (k + 1)
            (markFailed item.localId (some "Erreur de synchronisation") items).items
            e
            (mem_markFailed_of_ne item.localId (some "Erreur de synchronisation")
              items e he hid)
            hrest
    · simpa [syncAllFrom, h] using ih k items e he hrest

/-- C10: a sync pass works on the snapshot captured at invocation — an
entry of the current list whose local id is not in the snapshot (as a
freshly generated id of an entry enqueued after the pass began) is still
present, unchanged and `pending`, when the pass completes, and the pass's
`createSeizure` trace is determined by the snapshot alone. -/
theorem syncAll_snapshot_isolation (ok : Nat → Bool) (k : Nat)
    (snapshot items : List OfflineSeizure) (e : OfflineSeizure)
    (hstatus : e.status = OfflineSeizureStatus.pending)
    (hmem : e ∈ items)
    (hfresh : ∀ s ∈ snapshot, s.localId ≠ e.localId) :
    (e ∈ (syncAllFrom ok k snapshot items).1
      ∧ e.status = OfflineSeizureStatus.pending)
    ∧ (syncAllFrom ok k snapshot items).2 =
        (snapshot.filter (fun i => i.status == OfflineSeizureStatus.pending)).map
          (fun i => i.payload) :=
  ⟨⟨syncAllFrom_preserves_fresh ok snapshot k items e hmem hfresh, hstatus⟩,
   syncAllFrom_trace ok snapshot k items⟩

/-- A pending entry enqueued after the snapshot was taken, with a fresh
local id. -/
def lateEntry : OfflineSeizure :=
  { localId := "local-9-zzzzzz", payload := samplePayload
    status := OfflineSeizureStatus.pending, error := none }

/-- C10 witness: a concrete pass over the snapshot `[entryA]` leaves the
later-enqueued entry untouched and calls the collaborator only for the
snapshot. -/
theorem syncAll_snapshot_isolation_witness :
    (lateEntry ∈ (syncAllFrom (fun _ => true) 0 [entryA] [entryA, lateEntry]).1
      ∧ lateEntry.status = OfflineSeizureStatus.pending)
    ∧ (syncAllFrom (fun _ => true) 0 [entryA] [entryA, lateEntry]).2 =
        ([entryA].filter (fun i => i.status == OfflineSeizureStatus.pending)).map
          (fun i => i.payload) :=
  syncAll_snapshot_isolation (fun _ => true) 0 [entryA] [entryA, lateEntry]
    lateEntry rfl (by decide) (by decide)

end MeatSafe
